import Mathlib

/-!
# Verification of the LUMINA GRID step sequencer

Shallow embedding of the core of the `TenoriOn` component: the pattern
grid store, the sequencer clock arithmetic, the tempo handling, the
audio-engine trigger guards, the visual-effect simulation
(RIPPLE / GRAVITY / SPLASH / STAR) with its capacity policy, and the
per-cell brightness query.

JavaScript numbers are modelled as rationals (`ℚ`) where the source only
adds, multiplies, divides and compares, and as reals (`ℝ`) where the
source takes square roots, sines/cosines or real powers.  JS
`Math.sqrt`, which yields `NaN` on negative input, is modelled as an
`Option ℝ` where the possibility of `NaN` is itself under scrutiny.
JS arrays are Lean lists; `arr[i]` reads are `getElem?` so that
out-of-range accesses (JS `undefined`) are explicit.
-/

namespace Lumina

open Classical

/-! ## Constants (the frozen `CONSTANTS` object) -/

def ROWS : ℕ := 16
def COLS : ℕ := 16
def DEFAULT_BPM : ℚ := 120
def BASE_FREQ : ℚ := 174.61
def MAX_EFFECTS : ℕ := 150
def MIN_BPM : ℚ := 60
def MAX_BPM : ℚ := 240
def FLOOR_Y : ℚ := 15.5

/-- The fixed 16-entry pentatonic ratio table `PENTATONIC_RATIOS`. -/
def PENTATONIC_RATIOS : List ℚ :=
  [4.0, 3.367, 3.0, 2.667, 2.378, 2.0, 1.683, 1.5,
   1.333, 1.189, 1.0, 0.841, 0.75, 0.667, 0.595, 0.5]

/-! ## Sequencer clock (the sequencer `useEffect`)

While playing, each `setInterval` tick runs
`setCurrentCol(prev => (prev + 1) % CONSTANTS.COLS)`; while stopped the
effect runs `setCurrentCol(-1)`.  The stored column is `-1` or `0..15`,
so `prev + 1 ≥ 0` and the JS `%` agrees with `Int.emod`. -/

/-- One tick of the sequencer column: `(prev + 1) % CONSTANTS.COLS`. -/
def tickCol (prev : ℤ) : ℤ := (prev + 1) % (COLS : ℤ)

/-- The `else` branch of the sequencer effect: `setCurrentCol(-1)` while
not playing.  `sync` maps the playing flag and current column to the
column the effect leaves in place. -/
def syncCol (isPlaying : Bool) (col : ℤ) : ℤ :=
  if isPlaying then col else -1

/-! ## Tempo (`handleBpmChange` and the interval period) -/

/-- `handleBpmChange`: the stored bpm is
`Math.max(CONSTANTS.MIN_BPM, Math.min(CONSTANTS.MAX_BPM, val))`. -/
def handleBpmChange (val : ℚ) : ℚ := max MIN_BPM (min MAX_BPM val)

/-- The guarded bpm used by the sequencer effect:
`const safeBpm = Math.max(1, bpm)`. -/
def safeBpm (bpm : ℚ) : ℚ := max 1 bpm

/-- The interval period: `const msPerBeat = (60 * 1000) / safeBpm / 4`. -/
def msPerBeat (bpm : ℚ) : ℚ := 60 * 1000 / safeBpm bpm / 4

/-! ## Pattern grid store

`grids` is a JS array of 4 layers, each a 16×16 array of booleans.  We
model a layer as `List (List Bool)` and the store as a list of layers.
All mutating handlers copy-and-replace, so they are pure functions from
the previous store to the next. -/

abbrev Row := List Bool
abbrev Grid := List Row

/-- A fresh all-false 16×16 layer:
`Array(CONSTANTS.ROWS).fill().map(() => Array(CONSTANTS.COLS).fill(false))`. -/
def emptyGrid : Grid := List.replicate ROWS (List.replicate COLS false)

/-- Read one cell of the store; `none` models a JS out-of-range
(`undefined`) access at any of the three levels. -/
def cellAt (grids : List Grid) (l r c : ℕ) : Option Bool :=
  grids[l]?.bind fun layer => layer[r]?.bind fun row => row[c]?

/-- `handleClear`: replaces the active layer by a fresh all-false grid
when `newGrids[activeLayerIdx]` exists (arrays are truthy), otherwise
leaves the store as it was. -/
def handleClear (activeLayerIdx : ℕ) (grids : List Grid) : List Grid :=
  if activeLayerIdx < grids.length then grids.set activeLayerIdx emptyGrid
  else grids

/-- `toggleCell(r, c)`: copies the active layer and negates cell
`(r, c)`.  The source guards `newLayer[r] !== undefined`; the column
index always comes from the rendered 16×16 grid, so `c` is in range
whenever `r` is, and we read the cell through `getElem?` accordingly. -/
def toggleCell (activeLayerIdx r c : ℕ) (grids : List Grid) : List Grid :=
  match grids[activeLayerIdx]? with
  | none => grids
  | some layer =>
    match layer[r]? with
    | none => grids
    | some rowL =>
      match rowL[c]? with
      | none => grids
      | some b =>
          grids.set activeLayerIdx (layer.set r (rowL.set c (!b)))

/-- The drag-paint update shared by `handleMouseEnter` and
`handleTouchMove`: read `newGrids[activeLayerIdx][r]?.[c]` and only when
it is literally `false` copy the layer and set the cell to `true`. -/
def activateCellIfInactive (activeLayerIdx r c : ℕ) (grids : List Grid) :
    List Grid :=
  match grids[activeLayerIdx]? with
  | none => grids
  | some layer =>
    match layer[r]? with
    | none => grids
    | some rowL =>
      match rowL[c]? with
      | none => grids
      | some b =>
          if b = false then
            grids.set activeLayerIdx (layer.set r (rowL.set c true))
          else grids

/-! ## Audio engine (`class AudioEngine`)

Only the state the trigger guards read is modelled: the audio context
(`null` until `init` succeeds) and the `isInitialized` flag.  The graph
nodes a trigger would build are modelled as a list of scheduled audio
events; the engine's own fields are never written by a trigger, so each
trigger returns the engine it was given together with its events. -/

structure AudioCtx where
  sampleRate : ℚ
  currentTime : ℚ

structure AudioEngine where
  ctx : Option AudioCtx
  isInitialized : Bool

inductive DrumSound | kick | snare | hihat
deriving DecidableEq

/-- A sound scheduled by a trigger: the percussion timbre band chosen in
`playDrum`, or the oscillator voice built in `playTone` (waveform,
capped frequency, envelope peak, envelope duration). -/
inductive AudioEvent where
  | drum (sound : DrumSound) (volume : ℚ)
  | tone (waveform : String) (freq : ℝ) (peak : ℚ) (duration : ℚ)

/-- `playDrum(row, rawVolume)`: no-op unless `this.ctx` exists and
`this.isInitialized`; sanitizes the volume to `[0,1]`; picks kick for
rows ≥ 12, snare for rows ≥ 8, hi-hat otherwise. -/
def playDrum (engine : AudioEngine) (row : ℕ) (rawVolume : ℚ) :
    AudioEngine × List AudioEvent :=
  match engine.ctx, engine.isInitialized with
  | none, _ => (engine, [])
  | some _, false => (engine, [])
  | some _, true =>
      let volume := max 0 (min 1 rawVolume)
      if 12 ≤ row then (engine, [.drum .kick volume])
      else if 8 ≤ row then (engine, [.drum .snare volume])
      else (engine, [.drum .hihat volume])

/-- `playTone(row, layerType, baseOctave, rawVolume)`: no-op unless the
context exists and the engine is initialized; clamps volume; defers to
`playDrum` for the drum layer; otherwise builds one oscillator voice
with the pentatonic frequency (fallback ratio `1.0` for an out-of-range
row), the optional octave factor `2^baseOctave`, the Nyquist cap, and
the per-waveform envelope. -/
noncomputable def playTone (engine : AudioEngine) (row : ℕ)
    (layerType : String) (baseOctave : ℚ) (rawVolume : ℚ) :
    AudioEngine × List AudioEvent :=
  match engine.ctx, engine.isInitialized with
  | none, _ => (engine, [])
  | some _, false => (engine, [])
  | some ctx, true =>
      let volume := max 0 (min 1 rawVolume)
      if layerType = "drum" then playDrum engine row volume
      else
        let safeType :=
          if layerType ∈ ["sine", "square", "sawtooth", "triangle"]
          then layerType else "sine"
        let ratioVal := PENTATONIC_RATIOS[row]?.getD 1.0
        let freq0 : ℝ := (BASE_FREQ * ratioVal : ℚ)
        let freq1 : ℝ :=
          if baseOctave ≠ 0 then freq0 * (2 : ℝ) ^ ((baseOctave : ℝ)) else freq0
        let freq : ℝ :=
          if (ctx.sampleRate : ℝ) / 2 < freq1 then (ctx.sampleRate : ℝ) / 2
          else freq1
        if safeType = "square" then
          (engine, [.tone safeType freq (0.3 * volume) 0.4])
        else if safeType = "triangle" then
          (engine, [.tone safeType freq (0.5 * volume) 0.9])
        else
          (engine, [.tone safeType freq (0.6 * volume) 0.6])

/-! ## Visual effects -/

inductive EffectType | RIPPLE | GRAVITY | SPLASH | STAR
deriving DecidableEq

/-- One SPLASH particle: position offset, velocity, remaining life,
scale.  Positions and velocities involve `sin`/`cos`, hence `ℝ`; life
and scale stay rational. -/
structure Particle where
  r : ℝ
  c : ℝ
  dr : ℝ
  dc : ℝ
  life : ℚ
  scale : ℚ

/-- One live effect.  `y`/`dy` are only set for GRAVITY and `particles`
only for SPLASH; the other archetypes leave them at their creation
defaults, mirroring the absent JS object fields. -/
structure Effect where
  id : ℚ
  type : EffectType
  r : ℚ
  c : ℚ
  startTime : ℚ
  color : String
  layerIdx : ℕ
  y : ℝ := 0
  dy : ℝ := 0
  particles : List Particle := []

/-- `const g = 0.025` in the GRAVITY branch of `updatePhysics`. -/
def gGrav : ℚ := 0.025

/-- The 12 SPLASH particles built in `addVisualEffect`.  `rand1 i` and
`rand2 i` stand for the two `Math.random()` draws of iteration `i`:
`speed = 0.1 + rand1 i * 0.3` and `scale = 1.0 + rand2 i`. -/
noncomputable def splashParticles (rand1 rand2 : ℕ → ℚ) : List Particle :=
  (List.range 12).map fun (i : ℕ) =>
    let angle : ℝ := Real.pi * 2 * (i : ℝ) / 12
    let speed : ℚ := 0.1 + rand1 i * 0.3
    { r := 0, c := 0,
      dr := Real.sin angle * speed,
      dc := Real.cos angle * speed,
      life := 1.0,
      scale := 1.0 + rand2 i }

/-- The effect object built in `addVisualEffect` (with `idv` for the
`Math.random()` identifier and `now` for `Date.now()`). -/
noncomputable def mkEffect (idv : ℚ) (r c : ℚ) (type : EffectType)
    (layerColor : String) (layerIdx : ℕ) (now : ℚ)
    (rand1 rand2 : ℕ → ℚ) : Effect :=
  let base : Effect :=
    { id := idv, type := type, r := r, c := c, startTime := now,
      color := layerColor, layerIdx := layerIdx }
  match type with
  | .GRAVITY => { base with y := (r : ℝ), dy := 0 }
  | .SPLASH => { base with particles := splashParticles rand1 rand2 }
  | _ => base

/-- `addVisualEffect`: rejects the insertion outright once the live
collection has reached `MAX_EFFECTS`, else appends the new effect. -/
noncomputable def addVisualEffect (idv : ℚ) (r c : ℚ) (type : EffectType)
    (layerColor : String) (layerIdx : ℕ) (now : ℚ)
    (rand1 rand2 : ℕ → ℚ) (prev : List Effect) : List Effect :=
  if MAX_EFFECTS ≤ prev.length then prev
  else prev ++ [mkEffect idv r c type layerColor layerIdx now rand1 rand2]

/-- One per-frame update of a SPLASH particle, translated from
`eff.particles.map(p => ({ r: p.r + p.dr, c: p.c + p.dc, dr: p.dr + 0.005,
life: p.life - 0.02, scale: p.scale * 0.95, ...p }))`.  In a JS object
literal later entries win, so the trailing spread `...p` overwrites
every freshly computed field with the particle's original value: the
constructed object has exactly `p`'s fields. -/
def splashParticleStep (p : Particle) : Particle :=
  { r := p.r, c := p.c, dr := p.dr, dc := p.dc,
    life := p.life, scale := p.scale }

/-- The SPLASH per-frame particle pass: map the (spread-overridden)
update over the particles, then `.filter(p => p.life > 0)`. -/
def splashStep (ps : List Particle) : List Particle :=
  (ps.map splashParticleStep).filter fun p => decide (0 < p.life)

/-- JS `Math.sqrt`: `NaN` (modelled as `none`) on negative input. -/
noncomputable def jsSqrt (x : ℚ) : Option ℝ :=
  if x < 0 then none else some (Real.sqrt x)

/-- The GRAVITY rebound computation on floor contact,
`height > 0 ? -Math.sqrt(2 * g * height) : 0` with
`height = CONSTANTS.FLOOR_Y - eff.r`, with the square root taken by
`jsSqrt` so that a hypothetical `NaN` is observable. -/
noncomputable def bounceVelocityChecked (originR : ℚ) : Option ℝ :=
  let height := FLOOR_Y - originR
  if 0 < height then (jsSqrt (2 * gGrav * height)).map (fun s => -s)
  else some 0

/-- The same rebound computation with the total real square root. -/
noncomputable def bounceVelocity (originR : ℚ) : ℝ :=
  let height := FLOOR_Y - originR
  if 0 < height then -Real.sqrt ((2 * gGrav * height : ℚ)) else 0

/-- The per-effect body of `updatePhysics`: computes the updated effect
and the `keep` flag; `none` models `keep = false` (the effect is not
pushed to `activeEffects`). -/
noncomputable def stepEffect (now : ℚ) (eff : Effect) : Option Effect :=
  match eff.type with
  | .GRAVITY =>
      let y1 := eff.y + eff.dy
      let dy1 := eff.dy + (gGrav : ℝ)
      let st :=
        if (FLOOR_Y : ℝ) < y1 then (((FLOOR_Y : ℚ) : ℝ), bounceVelocity eff.r)
        else (y1, dy1)
      let y2 := st.1
      let dy2 := st.2
      if (dy2 < 0 ∧ -0.05 < dy2 ∧ |y2 - (FLOOR_Y : ℝ)| < 0.1) ∨
         3000 < now - eff.startTime then none
      else some { eff with y := y2, dy := dy2 }
  | .SPLASH =>
      let ps := splashStep eff.particles
      if ps.length = 0 then none else some { eff with particles := ps }
  | _ =>
      if 600 < now - eff.startTime then none else some eff

/-- One pass of the render-frame physics loop over the live collection:
return unchanged when empty, otherwise slice away all but the most
recent `MAX_EFFECTS` and run the per-effect body, keeping the survivors
in order. -/
noncomputable def updatePhysics (now : ℚ) (prevEffects : List Effect) :
    List Effect :=
  if prevEffects.length = 0 then prevEffects
  else
    let startIndex := prevEffects.length - MAX_EFFECTS
    let processingEffects := prevEffects.drop startIndex
    processingEffects.filterMap (stepEffect now)

/-! ## Brightness field (`getCellBrightness`) -/

/-- RIPPLE contribution at cell `(r, c)`.  Everything is rational. -/
def rippleContrib (now : ℚ) (eff : Effect) (r c : ℚ) : ℚ :=
  let timeDelta := now - eff.startTime
  let radius := timeDelta * 0.012
  let dist := max |r - eff.r| |c - eff.c|
  let distDiff := |dist - radius|
  if distDiff < 1.0 then (1.0 - distDiff) * (1 - timeDelta / 600) else 0

/-- GRAVITY contribution: the falling dot (within vertical distance 0.8
on the same column) plus the 0.1 trail between origin and dot. -/
noncomputable def gravityContrib (eff : Effect) (r c : ℚ) : ℝ :=
  let distY : ℝ := |(r : ℝ) - eff.y|
  let distX : ℚ := |c - eff.c|
  (if distX = 0 ∧ distY < 0.8 then 1.0 - distY else 0) +
  (if distX = 0 ∧ (r : ℝ) < eff.y ∧ eff.r ≤ r then 0.1 else 0)

/-- SPLASH contribution: sum over particles, after the per-particle
bounding-box check, of `(1 - dist/size) * life` for `dist < size`. -/
noncomputable def splashContrib (eff : Effect) (r c : ℚ) : ℝ :=
  (eff.particles.map fun p =>
    let particleR := (eff.r : ℝ) + p.r
    let particleC := (eff.c : ℝ) + p.c
    let dr := (r : ℝ) - particleR
    let dc := (c : ℝ) - particleC
    if 1 < |dr| ∨ 1 < |dc| then 0
    else
      let dist := Real.sqrt (dr * dr + dc * dc)
      let size : ℝ := 0.5 * (p.scale : ℝ)
      if dist < size then (1.0 - dist / size) * (p.life : ℝ) else 0).sum

/-- STAR contribution: cross arms within axis distance 4 plus diagonals
within offset 3 (weighted 0.7), scaled by the remaining life. -/
def starContrib (now : ℚ) (eff : Effect) (r c : ℚ) : ℚ :=
  let timeDelta := now - eff.startTime
  let life := 1 - timeDelta / 600
  if 0 < life then
    let distR := |r - eff.r|
    let distC := |c - eff.c|
    (if (distR = 0 ∧ distC < 4) ∨ (distC = 0 ∧ distR < 4) then
       (1 - max distR distC / 4) * life
     else 0) +
    (if distR = distC ∧ distR < 3 then (1 - distR / 3) * life * 0.7 else 0)
  else 0

/-- The archetype dispatch inside the brightness accumulation loop. -/
noncomputable def effContrib (now : ℚ) (eff : Effect) (r c : ℚ) : ℝ :=
  match eff.type with
  | .RIPPLE => (rippleContrib now eff r c : ℝ)
  | .GRAVITY => gravityContrib eff r c
  | .SPLASH => splashContrib eff r c
  | .STAR => (starContrib now eff r c : ℝ)

/-- The accumulation loop of `getCellBrightness`: skip effects of other
layers and far-away non-SPLASH effects, add the archetype contribution,
and break out as soon as the accumulator reaches `1`. -/
noncomputable def brightnessLoop (now : ℚ) (activeLayerIdx : ℕ) (r c : ℚ) :
    List Effect → ℝ → ℝ
  | [], acc => acc
  | eff :: rest, acc =>
      if eff.layerIdx ≠ activeLayerIdx then
        brightnessLoop now activeLayerIdx r c rest acc
      else if 8 < |eff.r - r| ∧ 8 < |eff.c - c| ∧ eff.type ≠ .SPLASH then
        brightnessLoop now activeLayerIdx r c rest acc
      else
        let acc' := acc + effContrib now eff r c
        if 1 ≤ acc' then acc'
        else brightnessLoop now activeLayerIdx r c rest acc'

/-- `getCellBrightness(r, c)`: iterate from the newest effect to the
oldest (the JS loop runs the index downwards, hence the `reverse`),
starting from `0`, and finally apply `Math.min(1, brightness)`. -/
noncomputable def getCellBrightness (now : ℚ) (activeLayerIdx : ℕ)
    (effects : List Effect) (r c : ℚ) : ℝ :=
  min 1 (brightnessLoop now activeLayerIdx r c effects.reverse 0)

/-! ## Theorems -/

/-- C4: the sequencer step column advances as `(previous + 1) mod 16` on
every tick, so after 16 ticks starting from column 0 (or any column in
range) the column is back where it started; while the sequencer is
stopped the current step column reads `−1`. -/
theorem sequencer_column_cycles :
    (∀ col : ℤ, 0 ≤ col → col < 16 → tickCol^[16] col = col) ∧
    (∀ col : ℤ, syncCol false col = -1) := by
  constructor
  · intro col h1 h2
    interval_cases col <;> decide
  · intro col
    rfl

/-- Witness for `sequencer_column_cycles` at column 0. -/
theorem sequencer_column_cycles_witness :
    tickCol^[16] 0 = 0 ∧ syncCol false 5 = -1 :=
  ⟨sequencer_column_cycles.1 0 (by decide) (by decide),
   sequencer_column_cycles.2 5⟩

/-- C5: the stored tempo is `clamp(v, 60, 240)` for every input `v`
(`setTempo(1000)` stores 240, `setTempo(-10)` stores 60), the repeating
timer period for a stored tempo is `60000 / clamp(bpm, 60, 240) / 4`
milliseconds, and the bpm reaching the period computation is strictly
positive — never 0 or negative. -/
theorem tempo_clamped :
    handleBpmChange 1000 = 240 ∧
    handleBpmChange (-10) = 60 ∧
    (∀ v : ℚ, handleBpmChange v = max 60 (min 240 v)) ∧
    (∀ v : ℚ, msPerBeat (handleBpmChange v) =
      60000 / (max 60 (min 240 v)) / 4) ∧
    (∀ v : ℚ, 0 < safeBpm (handleBpmChange v)) := by
  have hclamp : ∀ v : ℚ, handleBpmChange v = max 60 (min 240 v) := by
    intro v; rfl
  have hsafe : ∀ v : ℚ, safeBpm (handleBpmChange v) = max 60 (min 240 v) := by
    intro v
    rw [hclamp]
    exact max_eq_right (le_trans (by norm_num) (le_max_left 60 (min 240 v)))
  refine ⟨by norm_num [handleBpmChange, MIN_BPM, MAX_BPM],
          by norm_num [handleBpmChange, MIN_BPM, MAX_BPM],
          hclamp, ?_, ?_⟩
  · intro v
    unfold msPerBeat
    rw [hsafe]
    norm_num
  · intro v
    rw [hsafe]
    exact lt_of_lt_of_le (by norm_num) (le_max_left 60 (min 240 v))

/-- C6: the GRAVITY rebound on floor contact never evaluates the square
root on a negative number (no `NaN`); it is exactly 0 whenever
`FLOOR_Y − originRow` is not positive — in particular for an origin at
the floor row 15.5 — and `-sqrt(2 · 0.025 · (FLOOR_Y − originRow))`
whenever that height is positive. -/
theorem gravity_bounce_no_nan (originR : ℚ) :
    bounceVelocityChecked originR = some (bounceVelocity originR) ∧
    (FLOOR_Y - originR ≤ 0 → bounceVelocity originR = 0) ∧
    (0 < FLOOR_Y - originR →
      bounceVelocity originR =
        -Real.sqrt ((2 * gGrav * (FLOOR_Y - originR) : ℚ))) := by
  refine ⟨?_, ?_, ?_⟩
  · unfold bounceVelocityChecked bounceVelocity jsSqrt
    by_cases h : 0 < FLOOR_Y - originR
    · rw [if_pos h, if_pos h, if_neg (by
        have : (0 : ℚ) ≤ 2 * gGrav * (FLOOR_Y - originR) := by
          have : (0 : ℚ) < gGrav := by norm_num [gGrav]
          positivity
        linarith)]
      rfl
    · rw [if_neg h, if_neg h]
  · intro h
    unfold bounceVelocity
    rw [if_neg (by linarith)]
  · intro h
    unfold bounceVelocity
    rw [if_pos h]

/-- Witness for `gravity_bounce_no_nan` at the floor row 15.5. -/
theorem gravity_bounce_no_nan_witness :
    bounceVelocity (15.5 : ℚ) = 0 :=
  (gravity_bounce_no_nan 15.5).2.1 (by norm_num [FLOOR_Y])

/-- C7: both trigger operations are no-ops that leave the engine state
unchanged and schedule no audio (and in particular do not fail) whenever
the audio context is absent or the initialization flag is unset. -/
theorem triggers_noop_when_uninitialized
    (engine : AudioEngine) (row : ℕ) (layerType : String)
    (baseOctave rawVolume : ℚ)
    (h : engine.ctx = none ∨ engine.isInitialized = false) :
    playTone engine row layerType baseOctave rawVolume = (engine, []) ∧
    playDrum engine row rawVolume = (engine, []) := by
  obtain ⟨ctx, init⟩ := engine
  cases ctx <;> cases init <;> simp_all [playTone, playDrum]

/-- Witness for `triggers_noop_when_uninitialized` on a never-initialized
engine. -/
theorem triggers_noop_when_uninitialized_witness :
    playTone ⟨none, false⟩ 10 "sine" 0 0.8 = (⟨none, false⟩, []) ∧
    playDrum ⟨none, false⟩ 10 0.8 = (⟨none, false⟩, []) :=
  triggers_noop_when_uninitialized ⟨none, false⟩ 10 "sine" 0 0.8
    (Or.inl rfl)

/-! ### Grid-store lemmas -/

lemma lt_length_of_getElem?_eq_some {α : Type _} {l : List α} {i : ℕ}
    {a : α} (h : l[i]? = some a) : i < l.length :=
  (List.getElem?_eq_some.mp h).1

lemma list_set_self {α : Type _} {l : List α} {i : ℕ} {a : α}
    (h : l[i]? = some a) : l.set i a = l := by
  apply List.ext_getElem?
  intro n
  rw [List.getElem?_set]
  by_cases hn : i = n
  · subst hn
    rw [if_pos rfl, if_pos (lt_length_of_getElem?_eq_some h)]
    exact h.symm
  · rw [if_neg hn]

/-- Reading any cell of the store after replacing one cell of one layer:
the targeted cell reads the new value, every other cell is unchanged. -/
lemma cellAt_set (grids : List Grid) (idx r c : ℕ) (layer : Grid)
    (rowL : Row) (b : Bool)
    (h1 : grids[idx]? = some layer) (h2 : layer[r]? = some rowL)
    (h3 : c < rowL.length) (l r' c' : ℕ) :
    cellAt (grids.set idx (layer.set r (rowL.set c b))) l r' c' =
      if l = idx ∧ r' = r ∧ c' = c then some b
      else cellAt grids l r' c' := by
  have hg : idx < grids.length := lt_length_of_getElem?_eq_some h1
  have hr : r < layer.length := lt_length_of_getElem?_eq_some h2
  unfold cellAt
  rw [List.getElem?_set]
  by_cases hl : idx = l
  · subst hl
    rw [if_pos rfl, if_pos hg, h1, Option.some_bind, Option.some_bind,
      List.getElem?_set]
    by_cases hrr : r = r'
    · subst hrr
      rw [if_pos rfl, if_pos hr, h2, Option.some_bind, Option.some_bind,
        List.getElem?_set]
      by_cases hcc : c = c'
      · subst hcc
        rw [if_pos rfl, if_pos h3,
          if_pos ⟨rfl, rfl, rfl⟩]
      · rw [if_neg hcc, if_neg (by
          rintro ⟨-, -, rfl⟩
          exact hcc rfl)]
    · rw [if_neg hrr, if_neg (by
        rintro ⟨-, rfl, -⟩
        exact hrr rfl)]
  · rw [if_neg hl, if_neg (by
      rintro ⟨rfl, -, -⟩
      exact hl rfl)]

/-- C8: clearing the active layer (when it exists) sets every one of the
16×16 cells of that layer's grid to inactive and leaves the grids of all
other layers unchanged. -/
theorem clear_layer_clears_active_only (grids : List Grid) (idx : ℕ)
    (h : idx < grids.length) :
    (∀ r c : ℕ, r < 16 → c < 16 →
      cellAt (handleClear idx grids) idx r c = some false) ∧
    (∀ l : ℕ, l ≠ idx → (handleClear idx grids)[l]? = grids[l]?) := by
  constructor
  · intro r c hr hc
    unfold handleClear cellAt
    rw [if_pos h, List.getElem?_set_self h, Option.some_bind]
    unfold emptyGrid ROWS COLS
    rw [List.getElem?_replicate, if_pos hr, Option.some_bind,
      List.getElem?_replicate, if_pos hc]
  · intro l hl
    unfold handleClear
    rw [if_pos h, List.getElem?_set_ne (Ne.symm hl)]

/-- Witness for `clear_layer_clears_active_only` on a two-layer store
whose layers both have cell (2,3) active. -/
theorem clear_layer_clears_active_only_witness :
    cellAt
      (handleClear 0
        [emptyGrid.set 2 ((List.replicate 16 false).set 3 true),
         emptyGrid.set 2 ((List.replicate 16 false).set 3 true)])
      0 2 3 = some false ∧
    (handleClear 0
        [emptyGrid.set 2 ((List.replicate 16 false).set 3 true),
         emptyGrid.set 2 ((List.replicate 16 false).set 3 true)])[1]? =
      [emptyGrid.set 2 ((List.replicate 16 false).set 3 true),
       emptyGrid.set 2 ((List.replicate 16 false).set 3 true)][1]? :=
  ⟨(clear_layer_clears_active_only _ 0 (by simp)).1 2 3 (by norm_num)
      (by norm_num),
   (clear_layer_clears_active_only _ 0 (by simp)).2 1 (by norm_num)⟩

/-- C9: the drag-paint update is monotone.  Every active cell stays
active (so the active set only grows); a cell read as inactive becomes
active; in every other case (cell already active, or any index out of
range) the store is returned unchanged. -/
theorem activate_cell_monotone (grids : List Grid) (idx r c : ℕ) :
    (∀ l r' c', cellAt grids l r' c' = some true →
      cellAt (activateCellIfInactive idx r c grids) l r' c' = some true) ∧
    (cellAt grids idx r c = some false →
      cellAt (activateCellIfInactive idx r c grids) idx r c = some true) ∧
    (cellAt grids idx r c ≠ some false →
      activateCellIfInactive idx r c grids = grids) := by
  rcases h1 : grids[idx]? with - | layer
  · have heq : activateCellIfInactive idx r c grids = grids := by
      simp only [activateCellIfInactive, h1]
    refine ⟨fun l r' c' ht => by rw [heq]; exact ht, fun hf => ?_,
      fun _ => heq⟩
    unfold cellAt at hf
    rw [h1] at hf
    exact absurd hf (by simp)
  · rcases h2 : layer[r]? with - | rowL
    · have heq : activateCellIfInactive idx r c grids = grids := by
        simp only [activateCellIfInactive, h1, h2]
      refine ⟨fun l r' c' ht => by rw [heq]; exact ht, fun hf => ?_,
        fun _ => heq⟩
      unfold cellAt at hf
      rw [h1, Option.some_bind, h2] at hf
      exact absurd hf (by simp)
    · rcases h3 : rowL[c]? with - | b
      · have heq : activateCellIfInactive idx r c grids = grids := by
          simp only [activateCellIfInactive, h1, h2, h3]
        refine ⟨fun l r' c' ht => by rw [heq]; exact ht, fun hf => ?_,
          fun _ => heq⟩
        unfold cellAt at hf
        rw [h1, Option.some_bind, h2, Option.some_bind, h3] at hf
        exact absurd hf (by simp)
      · have hcell : cellAt grids idx r c = some b := by
          unfold cellAt
          rw [h1, Option.some_bind, h2, Option.some_bind, h3]
        cases b
        · have heq : activateCellIfInactive idx r c grids =
              grids.set idx (layer.set r (rowL.set c true)) := by
            simp only [activateCellIfInactive, h1, h2, h3,
              eq_self_iff_true, if_true]
          have hset := cellAt_set grids idx r c layer rowL true h1 h2
            (lt_length_of_getElem?_eq_some h3)
          refine ⟨fun l r' c' ht => ?_, fun _ => ?_, fun hne => ?_⟩
          · rw [heq, hset l r' c']
            by_cases htg : l = idx ∧ r' = r ∧ c' = c
            · rw [if_pos htg]
            · rw [if_neg htg]
              exact ht
          · rw [heq, hset idx r c, if_pos ⟨rfl, rfl, rfl⟩]
          · exact absurd hcell hne
        · have heq : activateCellIfInactive idx r c grids = grids := by
            simp only [activateCellIfInactive, h1, h2, h3,
              Bool.true_eq_false, if_false]
          refine ⟨fun l r' c' ht => by rw [heq]; exact ht, fun hf => ?_,
            fun _ => heq⟩
          rw [hcell] at hf
          exact absurd hf (by simp)

/-- Witness for `activate_cell_monotone`: painting cell (1,2) of layer 0
on a one-layer all-inactive store turns it on, and the already-active
cell of a store whose (1,2) is on is preserved. -/
theorem activate_cell_monotone_witness :
    cellAt (activateCellIfInactive 0 1 2 [emptyGrid]) 0 1 2 = some true ∧
    activateCellIfInactive 0 1 2
        [emptyGrid.set 1 ((List.replicate 16 false).set 2 true)] =
      [emptyGrid.set 1 ((List.replicate 16 false).set 2 true)] :=
  ⟨(activate_cell_monotone [emptyGrid] 0 1 2).2.1
      (by simp [cellAt, emptyGrid, ROWS, COLS, List.getElem?_replicate]),
   (activate_cell_monotone _ 0 1 2).2.2 (by
      simp [cellAt, emptyGrid, ROWS, COLS, List.getElem?_set,
        List.getElem?_replicate])⟩

/-- C10: `toggleCell` is an involution on in-range cells: toggling the
same cell twice restores the store exactly; a single application negates
that one cell of the active layer and leaves every other cell (on every
layer) unchanged. -/
theorem toggle_cell_involution (grids : List Grid) (idx r c : ℕ)
    (b : Bool) (h : cellAt grids idx r c = some b) :
    toggleCell idx r c (toggleCell idx r c grids) = grids ∧
    cellAt (toggleCell idx r c grids) idx r c = some (!b) ∧
    (∀ l r' c', ¬(l = idx ∧ r' = r ∧ c' = c) →
      cellAt (toggleCell idx r c grids) l r' c' = cellAt grids l r' c') := by
  rcases h1 : grids[idx]? with - | layer
  · unfold cellAt at h
    rw [h1] at h
    exact absurd h (by simp)
  rcases h2 : layer[r]? with - | rowL
  · unfold cellAt at h
    rw [h1, Option.some_bind, h2] at h
    exact absurd h (by simp)
  rcases h3 : rowL[c]? with - | b'
  · unfold cellAt at h
    rw [h1, Option.some_bind, h2, Option.some_bind, h3] at h
    exact absurd h (by simp)
  have hb : b' = b := by
    unfold cellAt at h
    rw [h1, Option.some_bind, h2, Option.some_bind, h3] at h
    exact Option.some_injective _ h
  rw [hb] at h3
  have hg : idx < grids.length := lt_length_of_getElem?_eq_some h1
  have hr : r < layer.length := lt_length_of_getElem?_eq_some h2
  have hc : c < rowL.length := lt_length_of_getElem?_eq_some h3
  have heq : toggleCell idx r c grids =
      grids.set idx (layer.set r (rowL.set c (!b))) := by
    simp only [toggleCell, h1, h2, h3]
  have g1 : (grids.set idx (layer.set r (rowL.set c (!b))))[idx]? =
      some (layer.set r (rowL.set c (!b))) :=
    List.getElem?_set_self hg
  have g2 : (layer.set r (rowL.set c (!b)))[r]? =
      some (rowL.set c (!b)) :=
    List.getElem?_set_self hr
  have g3 : (rowL.set c (!b))[c]? = some (!b) :=
    List.getElem?_set_self hc
  refine ⟨?_, ?_, ?_⟩
  · rw [heq]
    simp only [toggleCell, g1, g2, g3, Bool.not_not]
    rw [List.set_set, List.set_set, List.set_set, list_set_self h3,
      list_set_self h2, list_set_self h1]
  · rw [heq, cellAt_set grids idx r c layer rowL (!b) h1 h2 hc,
      if_pos ⟨rfl, rfl, rfl⟩]
  · intro l r' c' hne
    rw [heq, cellAt_set grids idx r c layer rowL (!b) h1 h2 hc,
      if_neg hne]

/-- Witness for `toggle_cell_involution` at cell (1,2) of layer 0 of a
one-layer all-inactive store. -/
theorem toggle_cell_involution_witness :
    toggleCell 0 1 2 (toggleCell 0 1 2 [emptyGrid]) = [emptyGrid] ∧
    cellAt (toggleCell 0 1 2 [emptyGrid]) 0 1 2 = some true :=
  ⟨(toggle_cell_involution [emptyGrid] 0 1 2 false
      (by simp [cellAt, emptyGrid, ROWS, COLS, List.getElem?_replicate])).1,
   (toggle_cell_involution [emptyGrid] 0 1 2 false
      (by simp [cellAt, emptyGrid, ROWS, COLS, List.getElem?_replicate])).2.1⟩

/-! ### Effect lifecycle -/

lemma splashParticleStep_id (p : Particle) : splashParticleStep p = p := rfl

lemma splashStep_eq_self (ps : List Particle)
    (h : ∀ p ∈ ps, 0 < p.life) : splashStep ps = ps := by
  unfold splashStep
  have hmap : ps.map splashParticleStep = ps := by
    have hfn : splashParticleStep = id := funext splashParticleStep_id
    rw [hfn, List.map_id]
  rw [hmap]
  exact List.filter_eq_self.mpr fun p hp => decide_eq_true (h p hp)

lemma splashParticles_life (rand1 rand2 : ℕ → ℚ) (p : Particle)
    (hp : p ∈ splashParticles rand1 rand2) : p.life = 1 := by
  unfold splashParticles at hp
  rw [List.mem_map] at hp
  obtain ⟨i, -, rfl⟩ := hp
  norm_num

/-- C1 (code bug): a SPLASH effect is created with exactly 12 particles,
but — because the trailing spread `...p` in the per-frame map overwrites
every freshly computed field — the per-frame particle pass is the
identity on any particle set whose lives are positive: positions,
velocities, lives and scales never change, the particle set never
empties, and `stepEffect` keeps a fresh SPLASH effect alive on every
frame at every time, contradicting the documented
`life -= 0.02` decay and bounded-frame removal. -/
theorem splash_effect_never_removed (rand1 rand2 : ℕ → ℚ) (now : ℚ)
    (n : ℕ) :
    (splashParticles rand1 rand2).length = 12 ∧
    splashStep^[n] (splashParticles rand1 rand2) =
      splashParticles rand1 rand2 ∧
    stepEffect now (mkEffect 0 3 4 .SPLASH "#f472b6" 2 0 rand1 rand2) =
      some (mkEffect 0 3 4 .SPLASH "#f472b6" 2 0 rand1 rand2) := by
  have hlife : ∀ p ∈ splashParticles rand1 rand2, 0 < p.life :=
    fun p hp => by rw [splashParticles_life rand1 rand2 p hp]; norm_num
  have hlen : (splashParticles rand1 rand2).length = 12 := by
    unfold splashParticles
    rw [List.length_map, List.length_range]
  refine ⟨hlen, ?_, ?_⟩
  · induction n with
    | zero => rfl
    | succ k ih =>
        rw [Function.iterate_succ_apply', ih, splashStep_eq_self _ hlife]
  · show stepEffect now
        { id := 0, type := .SPLASH, r := 3, c := 4, startTime := 0,
          color := "#f472b6", layerIdx := 2,
          particles := splashParticles rand1 rand2 } =
      some
        { id := 0, type := .SPLASH, r := 3, c := 4, startTime := 0,
          color := "#f472b6", layerIdx := 2,
          particles := splashParticles rand1 rand2 }
    simp only [stepEffect, splashStep_eq_self _ hlife, hlen]
    norm_num

/-- C3: insertion into a live collection already holding 150 effects is
rejected with the collection unchanged; insertion never pushes the size
past 150; and a simulation pass always returns at most 150 effects
(it slices the input down to the most recent 150 and only ever drops
effects from that slice). -/
theorem effect_capacity_bounded :
    (∀ (prev : List Effect) (idv r c : ℚ) (type : EffectType)
       (color : String) (lidx : ℕ) (now : ℚ) (rand1 rand2 : ℕ → ℚ),
       150 ≤ prev.length →
       addVisualEffect idv r c type color lidx now rand1 rand2 prev =
         prev) ∧
    (∀ (prev : List Effect) (idv r c : ℚ) (type : EffectType)
       (color : String) (lidx : ℕ) (now : ℚ) (rand1 rand2 : ℕ → ℚ),
       prev.length ≤ 150 →
       (addVisualEffect idv r c type color lidx now rand1 rand2
         prev).length ≤ 150) ∧
    (∀ (now : ℚ) (prev : List Effect),
       (updatePhysics now prev).length ≤ 150) := by
  refine ⟨?_, ?_, ?_⟩
  · intro prev idv r c type color lidx now rand1 rand2 h
    unfold addVisualEffect MAX_EFFECTS
    rw [if_pos h]
  · intro prev idv r c type color lidx now rand1 rand2 h
    unfold addVisualEffect MAX_EFFECTS
    by_cases hfull : 150 ≤ prev.length
    · rw [if_pos hfull]
      exact h
    · rw [if_neg hfull, List.length_append]
      push_neg at hfull
      simp only [List.length_cons, List.length_nil]
      omega
  · intro now prev
    unfold updatePhysics MAX_EFFECTS
    by_cases hz : prev.length = 0
    · rw [if_pos hz]
      omega
    · rw [if_neg hz]
      refine le_trans (List.length_filterMap_le _ _) ?_
      rw [List.length_drop]
      omega

/-- Witness for `effect_capacity_bounded` on a full collection of 150
RIPPLE effects. -/
theorem effect_capacity_bounded_witness :
    addVisualEffect 0 1 2 .RIPPLE "#60a5fa" 0 0 (fun _ => 0) (fun _ => 0)
        (List.replicate 150
          { id := 0, type := .RIPPLE, r := 1, c := 2, startTime := 0,
            color := "#60a5fa", layerIdx := 0 }) =
      List.replicate 150
        { id := 0, type := .RIPPLE, r := 1, c := 2, startTime := 0,
          color := "#60a5fa", layerIdx := 0 } ∧
    (updatePhysics 0
        (List.replicate 150
          { id := 0, type := .RIPPLE, r := 1, c := 2, startTime := 0,
            color := "#60a5fa", layerIdx := 0 })).length ≤ 150 :=
  ⟨effect_capacity_bounded.1 _ 0 1 2 .RIPPLE "#60a5fa" 0 0 _ _
      (by rw [List.length_replicate]),
   effect_capacity_bounded.2.2 0 _⟩

/-! ### Brightness bounds -/

lemma rippleContrib_nonneg (now : ℚ) (eff : Effect) (r c : ℚ)
    (h : now - eff.startTime ≤ 600) : 0 ≤ rippleContrib now eff r c := by
  unfold rippleContrib
  dsimp only
  split_ifs with hd
  · have h600 : (now - eff.startTime) / 600 ≤ 1 :=
      (div_le_one (by norm_num)).mpr h
    have habs : (0 : ℚ) ≤
        |max |r - eff.r| |c - eff.c| - (now - eff.startTime) * 0.012| :=
      abs_nonneg _
    nlinarith
  · exact le_refl 0

lemma gravityContrib_nonneg (eff : Effect) (r c : ℚ) :
    0 ≤ gravityContrib eff r c := by
  unfold gravityContrib
  dsimp only
  have h0 : (0 : ℝ) ≤ |(r : ℝ) - eff.y| := abs_nonneg _
  refine add_nonneg ?_ ?_
  · split_ifs with h1
    · obtain ⟨-, hd⟩ := h1
      linarith
    · exact le_refl 0
  · split_ifs with h2
    · norm_num
    · exact le_refl 0

lemma splashContrib_nonneg (eff : Effect) (r c : ℚ)
    (h : ∀ p ∈ eff.particles, 0 ≤ p.life) :
    0 ≤ splashContrib eff r c := by
  unfold splashContrib
  refine List.sum_nonneg ?_
  intro x hx
  rw [List.mem_map] at hx
  obtain ⟨p, hp, rfl⟩ := hx
  dsimp only
  split_ifs with hbox hdist
  · exact le_refl 0
  · have hd0 : (0 : ℝ) ≤ Real.sqrt
        (((r : ℝ) - ((eff.r : ℝ) + p.r)) * ((r : ℝ) - ((eff.r : ℝ) + p.r)) +
         ((c : ℝ) - ((eff.c : ℝ) + p.c)) * ((c : ℝ) - ((eff.c : ℝ) + p.c))) :=
      Real.sqrt_nonneg _
    have hszpos : (0 : ℝ) < 0.5 * (p.scale : ℝ) := lt_of_le_of_lt hd0 hdist
    have hdiv : Real.sqrt
        (((r : ℝ) - ((eff.r : ℝ) + p.r)) * ((r : ℝ) - ((eff.r : ℝ) + p.r)) +
         ((c : ℝ) - ((eff.c : ℝ) + p.c)) * ((c : ℝ) - ((eff.c : ℝ) + p.c))) /
          (0.5 * (p.scale : ℝ)) ≤ 1 :=
      (div_le_one hszpos).mpr (le_of_lt hdist)
    have hlife : (0 : ℝ) ≤ (p.life : ℝ) := by exact_mod_cast h p hp
    nlinarith
  · exact le_refl 0

lemma starContrib_nonneg (now : ℚ) (eff : Effect) (r c : ℚ) :
    0 ≤ starContrib now eff r c := by
  unfold starContrib
  dsimp only
  have hr0 : (0 : ℚ) ≤ |r - eff.r| := abs_nonneg _
  have hc0 : (0 : ℚ) ≤ |c - eff.c| := abs_nonneg _
  by_cases hlife : (0 : ℚ) < 1 - (now - eff.startTime) / 600
  · rw [if_pos hlife]
    refine add_nonneg ?_ ?_
    · split_ifs with h1
      · have hm : max |r - eff.r| |c - eff.c| < 4 := by
          rcases h1 with ⟨hre, hcl⟩ | ⟨hce, hrl⟩
          · rw [hre, max_eq_right hc0]
            exact hcl
          · rw [hce, max_eq_left hr0]
            exact hrl
        have h14 : (0 : ℚ) ≤ 1 - max |r - eff.r| |c - eff.c| / 4 := by
          linarith
        exact mul_nonneg h14 (le_of_lt hlife)
      · exact le_rfl
    · split_ifs with h2
      · obtain ⟨-, hrl⟩ := h2
        have h13 : (0 : ℚ) ≤ 1 - |r - eff.r| / 3 := by linarith
        exact mul_nonneg (mul_nonneg h13 (le_of_lt hlife)) (by norm_num)
      · exact le_rfl
  · rw [if_neg hlife]

lemma effContrib_nonneg (now : ℚ) (eff : Effect) (r c : ℚ)
    (hR : eff.type = .RIPPLE → now - eff.startTime ≤ 600)
    (hP : ∀ p ∈ eff.particles, 0 ≤ p.life) :
    0 ≤ effContrib now eff r c := by
  rcases htype : eff.type with - | - | - | -
  · rw [show effContrib now eff r c = ((rippleContrib now eff r c : ℚ) : ℝ)
      by unfold effContrib; rw [htype]]
    exact_mod_cast rippleContrib_nonneg now eff r c (hR htype)
  · rw [show effContrib now eff r c = gravityContrib eff r c
      by unfold effContrib; rw [htype]]
    exact gravityContrib_nonneg eff r c
  · rw [show effContrib now eff r c = splashContrib eff r c
      by unfold effContrib; rw [htype]]
    exact splashContrib_nonneg eff r c hP
  · rw [show effContrib now eff r c = ((starContrib now eff r c : ℚ) : ℝ)
      by unfold effContrib; rw [htype]]
    exact_mod_cast starContrib_nonneg now eff r c

lemma brightnessLoop_nonneg (now : ℚ) (aIdx : ℕ) (r c : ℚ)
    (l : List Effect) (acc : ℝ) (hacc : 0 ≤ acc)
    (hcon : ∀ eff ∈ l, 0 ≤ effContrib now eff r c) :
    0 ≤ brightnessLoop now aIdx r c l acc := by
  induction l generalizing acc with
  | nil => exact hacc
  | cons eff rest ih =>
      rw [brightnessLoop]
      dsimp only
      have hrest : ∀ e ∈ rest, 0 ≤ effContrib now e r c :=
        fun e he => hcon e (List.mem_cons_of_mem _ he)
      have heff : 0 ≤ effContrib now eff r c :=
        hcon eff (List.mem_cons_self _ _)
      split_ifs with h1 h2 h3
      · exact ih acc hacc hrest
      · exact ih acc hacc hrest
      · exact add_nonneg hacc heff
      · exact ih _ (add_nonneg hacc heff) hrest

lemma brightnessLoop_of_zero (now : ℚ) (aIdx : ℕ) (r c : ℚ)
    (l : List Effect) (acc : ℝ)
    (hcon : ∀ eff ∈ l, eff.layerIdx = aIdx → effContrib now eff r c = 0) :
    brightnessLoop now aIdx r c l acc = acc := by
  induction l generalizing acc with
  | nil => rfl
  | cons eff rest ih =>
      rw [brightnessLoop]
      dsimp only
      have hrest : ∀ e ∈ rest, e.layerIdx = aIdx → effContrib now e r c = 0 :=
        fun e he => hcon e (List.mem_cons_of_mem _ he)
      split_ifs with h1 h2 h3
      · exact ih acc hrest
      · exact ih acc hrest
      · rw [hcon eff (List.mem_cons_self _ _) (not_ne_iff.mp h1), add_zero]
      · rw [hcon eff (List.mem_cons_self _ _) (not_ne_iff.mp h1), add_zero]
        exact ih acc hrest

/-- C2, amended: the brightness query returns exactly 0 when every
active-layer effect contributes 0 at the cell (in particular when no
active-layer effect exists), never exceeds 1, and lies in `[0,1]`
whenever every active-layer RIPPLE is at most 600 ms old at query time
and every SPLASH particle's remaining life is nonnegative — as holds for
the collections the simulation maintains between prune passes. -/
theorem brightness_query_bounds (now : ℚ) (aIdx : ℕ)
    (effects : List Effect) (r c : ℚ) :
    getCellBrightness now aIdx effects r c ≤ 1 ∧
    ((∀ eff ∈ effects, eff.layerIdx = aIdx → effContrib now eff r c = 0) →
      getCellBrightness now aIdx effects r c = 0) ∧
    ((∀ eff ∈ effects, eff.type = .RIPPLE → now - eff.startTime ≤ 600) →
     (∀ eff ∈ effects, ∀ p ∈ eff.particles, 0 ≤ p.life) →
      0 ≤ getCellBrightness now aIdx effects r c) := by
  refine ⟨min_le_left _ _, ?_, ?_⟩
  · intro h
    unfold getCellBrightness
    rw [brightnessLoop_of_zero now aIdx r c effects.reverse 0
      (fun eff he hl => h eff (List.mem_reverse.mp he) hl)]
    exact min_eq_right zero_le_one
  · intro hR hP
    unfold getCellBrightness
    exact le_min zero_le_one
      (brightnessLoop_nonneg now aIdx r c effects.reverse 0 le_rfl
        (fun eff he => effContrib_nonneg now eff r c
          (fun ht => hR eff (List.mem_reverse.mp he) ht)
          (fun p hp => hP eff (List.mem_reverse.mp he) p hp)))

/-- Witness for `brightness_query_bounds`: an empty collection reads 0,
and a 300 ms old RIPPLE stays within bounds. -/
theorem brightness_query_bounds_witness :
    getCellBrightness 0 0 [] 0 0 = 0 ∧
    0 ≤ getCellBrightness 300 0
        [{ id := 0, type := .RIPPLE, r := 0, c := 0, startTime := 0,
           color := "#60a5fa", layerIdx := 0 }] 11 0 :=
  ⟨(brightness_query_bounds 0 0 [] 0 0).2.1
      (fun eff he _ => absurd he (List.not_mem_nil eff)),
   (brightness_query_bounds 300 0 _ 11 0).2.2
      (fun eff he _ => by
        rw [List.mem_singleton] at he
        subst he
        norm_num)
      (fun eff he p hp => by
        rw [List.mem_singleton] at he
        subst he
        exact absurd hp (List.not_mem_nil p))⟩

/-- C2 counterexample: a live RIPPLE effect of the active layer aged
900 ms (possible because pruning happens on a different clock than the
query) makes the brightness at a cell on its ring `-0.4`: the claim that
the value always lies in `[0,1]` regardless of the effects' ages fails,
because the code only clamps from above with `Math.min(1, ·)`. -/
theorem brightness_below_zero_counterexample :
    getCellBrightness 900 0
      [{ id := 0, type := .RIPPLE, r := 0, c := 0, startTime := 0,
         color := "#60a5fa", layerIdx := 0 }] 11 0 = -(2/5 : ℝ) ∧
    ¬(0 ≤ getCellBrightness 900 0
      [{ id := 0, type := .RIPPLE, r := 0, c := 0, startTime := 0,
         color := "#60a5fa", layerIdx := 0 }] 11 0) := by
  have hr : rippleContrib 900
      { id := 0, type := .RIPPLE, r := 0, c := 0, startTime := 0,
        color := "#60a5fa", layerIdx := 0 } 11 0 = -(2/5 : ℚ) := by
    unfold rippleContrib
    norm_num [abs_of_nonneg, abs_of_nonpos]
  have hloop : brightnessLoop 900 0 11 0
      [{ id := 0, type := .RIPPLE, r := 0, c := 0, startTime := 0,
         color := "#60a5fa", layerIdx := 0 }] 0 = ((-(2/5 : ℚ) : ℚ) : ℝ) := by
    rw [brightnessLoop]
    rw [if_neg (by norm_num)]
    rw [if_neg (by norm_num)]
    rw [show effContrib 900
        { id := 0, type := .RIPPLE, r := 0, c := 0, startTime := 0,
          color := "#60a5fa", layerIdx := 0 } 11 0 =
        ((rippleContrib 900
          { id := 0, type := .RIPPLE, r := 0, c := 0, startTime := 0,
            color := "#60a5fa", layerIdx := 0 } 11 0 : ℚ) : ℝ) from rfl]
    rw [hr]
    rw [if_neg (by push_cast; norm_num)]
    rw [brightnessLoop]
    push_cast
    norm_num
  have hmain : getCellBrightness 900 0
      [{ id := 0, type := .RIPPLE, r := 0, c := 0, startTime := 0,
         color := "#60a5fa", layerIdx := 0 }] 11 0 = -(2/5 : ℝ) := by
    unfold getCellBrightness
    rw [List.reverse_singleton, hloop]
    push_cast
    rw [min_eq_right (by norm_num)]
  refine ⟨hmain, ?_⟩
  rw [hmain]
  norm_num

end Lumina
